import Mathlib

/-!
# hundred-km : `GraphicsPipeline` (src/graphics_pipeline.cpp)

A shallow embedding of the pipeline builder.  The Vulkan driver is an external
collaborator: every driver entry point the code calls is recorded, in order, in
a trace of `DriverCall`s, and the answers of the creation entry points (and of
`resource_handler::read_shader_binary`) are supplied by an `Env`.

C++ exceptions and the dereference of a null `device` pointer are explicit
results (`Abort.thrown`, `Abort.fault`); the trace and the object's fields are
kept as they are at that point, so that what was created and not released can be
inspected.
-/

namespace hkm

/-! ## Vulkan values -/

/-- Vulkan object handles (`VkDevice`, `VkPipeline`, `VkPipelineLayout`,
`VkShaderModule`, `VkRenderPass`); `0` is the null handle. -/
abbrev Handle := Nat

/-- The null handle, `VK_NULL_HANDLE`; `nullptr` assigned to a handle is the same value. -/
def VK_NULL_HANDLE : Handle := 0

/-- Width of `uint32_t`: the count, stride and offset fields are reduced modulo this. -/
def UINT32 : Nat := 2 ^ 32

/-- Value of `sizeof(float)`: 4 bytes (IEEE single precision, as Vulkan requires). -/
def sizeof_float : Nat := 4

/-- Modelled from the spec: the device class `LogicalDevice` is declared outside
src; all the code uses of it is `get_logical_device()`, "a way to resolve a live
low-level device context". A `const LogicalDevice*` is an `Option LogicalDevice`,
`none` being `nullptr`. -/
structure LogicalDevice where
  logical_device : Handle
deriving DecidableEq, Repr

/-- Accessor `LogicalDevice::get_logical_device()`. -/
def LogicalDevice.get_logical_device (d : LogicalDevice) : Handle := d.logical_device

inductive VkShaderStageFlagBits where
  | VK_SHADER_STAGE_VERTEX_BIT
  | VK_SHADER_STAGE_FRAGMENT_BIT
deriving DecidableEq, Repr

inductive VkDynamicState where
  | VK_DYNAMIC_STATE_VIEWPORT
  | VK_DYNAMIC_STATE_SCISSOR
deriving DecidableEq, Repr

inductive VkVertexInputRate where
  | VK_VERTEX_INPUT_RATE_VERTEX
  | VK_VERTEX_INPUT_RATE_INSTANCE
deriving DecidableEq, Repr

inductive VkFormat where
  | VK_FORMAT_UNDEFINED
  | VK_FORMAT_R32G32_SFLOAT
  | VK_FORMAT_R32G32B32_SFLOAT
deriving DecidableEq, Repr

/-- Number of 32-bit float components of a vertex format (two for `R32G32`,
three for `R32G32B32`). -/
def VkFormat.components : VkFormat → Nat
  | .VK_FORMAT_UNDEFINED => 0
  | .VK_FORMAT_R32G32_SFLOAT => 2
  | .VK_FORMAT_R32G32B32_SFLOAT => 3

/-- Bytes one attribute of the format occupies in the vertex buffer. -/
def VkFormat.size (f : VkFormat) : Nat := sizeof_float * f.components

inductive VkPrimitiveTopology where
  | VK_PRIMITIVE_TOPOLOGY_POINT_LIST
  | VK_PRIMITIVE_TOPOLOGY_TRIANGLE_LIST
deriving DecidableEq, Repr

inductive VkPolygonMode where
  | VK_POLYGON_MODE_FILL
  | VK_POLYGON_MODE_LINE
deriving DecidableEq, Repr

inductive VkFrontFace where
  | VK_FRONT_FACE_COUNTER_CLOCKWISE
  | VK_FRONT_FACE_CLOCKWISE
deriving DecidableEq, Repr

inductive VkBlendFactor where
  | VK_BLEND_FACTOR_ZERO
  | VK_BLEND_FACTOR_ONE
deriving DecidableEq, Repr

inductive VkBlendOp where
  | VK_BLEND_OP_ADD
deriving DecidableEq, Repr

inductive VkLogicOp where
  | VK_LOGIC_OP_CLEAR
  | VK_LOGIC_OP_COPY
deriving DecidableEq, Repr

def VK_CULL_MODE_BACK_BIT : Nat := 2
def VK_SAMPLE_COUNT_1_BIT : Nat := 1
def VK_COLOR_COMPONENT_R_BIT : Nat := 1
def VK_COLOR_COMPONENT_G_BIT : Nat := 2
def VK_COLOR_COMPONENT_B_BIT : Nat := 4
def VK_COLOR_COMPONENT_A_BIT : Nat := 8

/-! ## Creation records

A C pointer to an array is an `Option (List _)`: `none` is `nullptr`, `some xs`
the elements the driver reads through it.  `float` fields hold the exact value
of the literal assigned to them (only `0.0f` and `1.0f` occur); the `sType` tag
of each record is fixed by the record's type. -/

structure VkShaderModuleCreateInfo where
  codeSize : Nat
  pCode : List Nat
deriving DecidableEq, Repr

structure VkPipelineShaderStageCreateInfo where
  stage : VkShaderStageFlagBits
  module : Handle
  pName : String
deriving DecidableEq, Repr

structure VkPipelineDynamicStateCreateInfo where
  dynamicStateCount : Nat
  pDynamicStates : Option (List VkDynamicState)
deriving DecidableEq, Repr

structure VkVertexInputBindingDescription where
  binding : Nat
  stride : Nat
  inputRate : VkVertexInputRate
deriving DecidableEq, Repr

structure VkVertexInputAttributeDescription where
  location : Nat
  binding : Nat
  format : VkFormat
  offset : Nat
deriving DecidableEq, Repr

structure VkPipelineVertexInputStateCreateInfo where
  vertexBindingDescriptionCount : Nat
  pVertexBindingDescriptions : Option (List VkVertexInputBindingDescription)
  vertexAttributeDescriptionCount : Nat
  pVertexAttributeDescriptions : Option (List VkVertexInputAttributeDescription)
deriving DecidableEq, Repr

structure VkPipelineInputAssemblyStateCreateInfo where
  topology : VkPrimitiveTopology
  primitiveRestartEnable : Bool
deriving DecidableEq, Repr

structure VkViewport where
  x : Int
  y : Int
  width : Int
  height : Int
  minDepth : Int
  maxDepth : Int
deriving DecidableEq, Repr

structure VkRect2D where
  offsetX : Int
  offsetY : Int
  extentWidth : Nat
  extentHeight : Nat
deriving DecidableEq, Repr

structure VkPipelineViewportStateCreateInfo where
  viewportCount : Nat
  pViewports : Option (List VkViewport)
  scissorCount : Nat
  pScissors : Option (List VkRect2D)
deriving DecidableEq, Repr

structure VkPipelineRasterizationStateCreateInfo where
  depthClampEnable : Bool
  rasterizerDiscardEnable : Bool
  polygonMode : VkPolygonMode
  lineWidth : Int
  cullMode : Nat
  frontFace : VkFrontFace
  depthBiasEnable : Bool
  depthBiasConstantFactor : Int
  depthBiasClamp : Int
  depthBiasSlopeFactor : Int
deriving DecidableEq, Repr

structure VkPipelineMultisampleStateCreateInfo where
  sampleShadingEnable : Bool
  rasterizationSamples : Nat
  minSampleShading : Int
  pSampleMask : Option (List Nat)
  alphaToCoverageEnable : Bool
  alphaToOneEnable : Bool
deriving DecidableEq, Repr

structure VkPipelineColorBlendAttachmentState where
  colorWriteMask : Nat
  blendEnable : Bool
  srcColorBlendFactor : VkBlendFactor
  dstColorBlendFactor : VkBlendFactor
  colorBlendOp : VkBlendOp
  srcAlphaBlendFactor : VkBlendFactor
  dstAlphaBlendFactor : VkBlendFactor
  alphaBlendOp : VkBlendOp
deriving DecidableEq, Repr

structure VkPipelineColorBlendStateCreateInfo where
  logicOpEnable : Bool
  logicOp : VkLogicOp
  attachmentCount : Nat
  pAttachments : Option (List VkPipelineColorBlendAttachmentState)
  blendConstants : List Int
deriving DecidableEq, Repr

structure VkPipelineLayoutCreateInfo where
  setLayoutCount : Nat
  pSetLayouts : Option (List Handle)
  pushConstantRangeCount : Nat
  pPushConstantRanges : Option (List Nat)
deriving DecidableEq, Repr

structure VkGraphicsPipelineCreateInfo where
  stageCount : Nat
  pStages : Option (List VkPipelineShaderStageCreateInfo)
  pVertexInputState : Option VkPipelineVertexInputStateCreateInfo
  pInputAssemblyState : Option VkPipelineInputAssemblyStateCreateInfo
  pViewportState : Option VkPipelineViewportStateCreateInfo
  pRasterizationState : Option VkPipelineRasterizationStateCreateInfo
  pMultisampleState : Option VkPipelineMultisampleStateCreateInfo
  pDepthStencilState : Option Unit
  pColorBlendState : Option VkPipelineColorBlendStateCreateInfo
  pDynamicState : Option VkPipelineDynamicStateCreateInfo
  layout : Handle
  renderPass : Handle
  subpass : Nat
  basePipelineHandle : Handle
  basePipelineIndex : Int
deriving DecidableEq, Repr

/-! ## The driver -/

/-- One call into the driver, with the arguments the code passes (the allocator
argument is `nullptr` in every call of the source and is left out). -/
inductive DriverCall where
  | vkCreateShaderModule (device : Handle) (pCreateInfo : VkShaderModuleCreateInfo)
  | vkDestroyShaderModule (device : Handle) (shaderModule : Handle)
  | vkCreatePipelineLayout (device : Handle) (pCreateInfo : VkPipelineLayoutCreateInfo)
  | vkDestroyPipelineLayout (device : Handle) (pipelineLayout : Handle)
  | vkCreateGraphicsPipelines (device : Handle) (pipelineCache : Handle)
      (createInfoCount : Nat) (pCreateInfos : VkGraphicsPipelineCreateInfo)
  | vkDestroyPipeline (device : Handle) (pipeline : Handle)
deriving DecidableEq, Repr

/-- A destroy call of any of the three kinds. -/
def DriverCall.isDestroy : DriverCall → Bool
  | .vkDestroyShaderModule _ _ => true
  | .vkDestroyPipelineLayout _ _ => true
  | .vkDestroyPipeline _ _ => true
  | _ => false

/-- A shader-module creation call. -/
def DriverCall.isCreateShaderModule : DriverCall → Bool
  | .vkCreateShaderModule _ _ => true
  | _ => false

/-- Answer of a creation entry point: `VK_SUCCESS` with the handle stored through
the out pointer, or any other `VkResult`, where the driver may (`some h`) or may
not (`none`) have stored something through the out pointer. -/
inductive CreateResult where
  | success (handle : Handle)
  | failure (stored : Option Handle)
deriving DecidableEq, Repr

/-- The collaborators of the builder. `read_shader_binary` is
`resource_handler::read_shader_binary` (declared outside src): it returns the
bytes or throws. The three creation entry points answer from the calls made so
far, the device and the creation record. -/
structure Env where
  read_shader_binary : String → Except String (List Nat)
  vkCreateShaderModule : List DriverCall → Handle → VkShaderModuleCreateInfo → CreateResult
  vkCreatePipelineLayout : List DriverCall → Handle → VkPipelineLayoutCreateInfo → CreateResult
  vkCreateGraphicsPipelines :
    List DriverCall → Handle → VkGraphicsPipelineCreateInfo → CreateResult

/-- How a member function ends other than by returning: a thrown
`std::runtime_error` (or what `read_shader_binary` throws), or the dereference
of a null `device` pointer. -/
inductive Abort where
  | thrown (what : String)
  | fault
deriving DecidableEq, Repr

/-! ## The builder -/

structure GraphicsPipelineConfigInfo where
  render_pass : Handle
deriving DecidableEq, Repr

/-- Data members of `GraphicsPipeline`, as graphics_pipeline.cpp uses them. -/
structure GraphicsPipeline where
  device : Option LogicalDevice
  vert_name : String
  frag_name : String
  config_info : GraphicsPipelineConfigInfo
  pipeline_layout : Handle
  graphics_pipeline_handle : Handle
  vertex_input_binding_description : VkVertexInputBindingDescription
  vertex_input_attribute_descriptions : List VkVertexInputAttributeDescription
deriving DecidableEq, Repr

/-- Modelled from the spec: the class declaration (graphics_pipeline.hpp) is not
in src. The default constructor `GraphicsPipeline::GraphicsPipeline() {}` leaves
every member at its default: the spec's never-constructed builder has a null
device reference and null handles; strings and the attribute vector are empty. -/
def GraphicsPipeline.default : GraphicsPipeline :=
  { device := none
    vert_name := ""
    frag_name := ""
    config_info := { render_pass := VK_NULL_HANDLE }
    pipeline_layout := VK_NULL_HANDLE
    graphics_pipeline_handle := VK_NULL_HANDLE
    vertex_input_binding_description :=
      { binding := 0, stride := 0, inputRate := .VK_VERTEX_INPUT_RATE_VERTEX }
    vertex_input_attribute_descriptions := [] }

/-- `GraphicsPipeline::destroy()`: two driver calls, each after evaluating
`device->get_logical_device()`. No member is assigned. -/
def destroy (self : GraphicsPipeline) (trace : List DriverCall) :
    Except Abort Unit × List DriverCall :=
  match self.device with
  | none => (.error .fault, trace)
  | some device =>
    let trace := trace ++
      [.vkDestroyPipeline device.get_logical_device self.graphics_pipeline_handle]
    match self.device with
    | none => (.error .fault, trace)
    | some device =>
      (.ok (), trace ++
        [.vkDestroyPipelineLayout device.get_logical_device self.pipeline_layout])

/-- `GraphicsPipeline::create_shader_module(code)`. -/
def create_shader_module (env : Env) (self : GraphicsPipeline) (code : List Nat)
    (trace : List DriverCall) : Except Abort Handle × List DriverCall :=
  let create_info : VkShaderModuleCreateInfo := { codeSize := code.length, pCode := code }
  match self.device with
  | none => (.error .fault, trace)
  | some device =>
    match env.vkCreateShaderModule trace device.get_logical_device create_info with
    | .success shader_module =>
      (.ok shader_module,
        trace ++ [.vkCreateShaderModule device.get_logical_device create_info])
    | .failure _ =>
      (.error (.thrown "Failed to create shader module!"),
        trace ++ [.vkCreateShaderModule device.get_logical_device create_info])

/-! ### Records assembled by `create_graphics_pipeline`

Each definition is the local variable of the same name at the point where the
driver reads it. -/

def vert_shader_stage_info (vert_shader_module : Handle) : VkPipelineShaderStageCreateInfo :=
  { stage := .VK_SHADER_STAGE_VERTEX_BIT, module := vert_shader_module, pName := "main" }

def frag_shader_stage_info (frag_shader_module : Handle) : VkPipelineShaderStageCreateInfo :=
  { stage := .VK_SHADER_STAGE_FRAGMENT_BIT, module := frag_shader_module, pName := "main" }

def shader_stages (vert_shader_module frag_shader_module : Handle) :
    List VkPipelineShaderStageCreateInfo :=
  [vert_shader_stage_info vert_shader_module, frag_shader_stage_info frag_shader_module]

def dynamic_states : List VkDynamicState :=
  [.VK_DYNAMIC_STATE_VIEWPORT, .VK_DYNAMIC_STATE_SCISSOR]

def dynamic_state_info : VkPipelineDynamicStateCreateInfo :=
  { dynamicStateCount := dynamic_states.length % UINT32
    pDynamicStates := some dynamic_states }

def position_description : VkVertexInputAttributeDescription :=
  { binding := 0, location := 0, format := .VK_FORMAT_R32G32B32_SFLOAT, offset := 0 }

def normal_description : VkVertexInputAttributeDescription :=
  { binding := 0, location := 1, format := .VK_FORMAT_R32G32B32_SFLOAT
    offset := (sizeof_float * 3) % UINT32 }

def tex_coords_description : VkVertexInputAttributeDescription :=
  { binding := 0, location := 2, format := .VK_FORMAT_R32G32_SFLOAT
    offset := (sizeof_float * 3 * 2) % UINT32 }

/-- The members `vertex_input_binding_description` and
`vertex_input_attribute_descriptions` after lines 96-120: the binding is
overwritten, the three attributes are pushed onto the back of the vector. -/
def assign_vertex_input (self : GraphicsPipeline) : GraphicsPipeline :=
  { self with
    vertex_input_binding_description :=
      { binding := 0
        stride := (sizeof_float * (3 * 2 + 2)) % UINT32
        inputRate := .VK_VERTEX_INPUT_RATE_VERTEX }
    vertex_input_attribute_descriptions :=
      self.vertex_input_attribute_descriptions ++
        [position_description, normal_description, tex_coords_description] }

/-- Local `vertex_input_info`, pointing at the two members. -/
def vertex_input_info (self : GraphicsPipeline) : VkPipelineVertexInputStateCreateInfo :=
  { vertexBindingDescriptionCount := 1
    pVertexBindingDescriptions := some [self.vertex_input_binding_description]
    vertexAttributeDescriptionCount := self.vertex_input_attribute_descriptions.length % UINT32
    pVertexAttributeDescriptions := some self.vertex_input_attribute_descriptions }

def input_assembly_info : VkPipelineInputAssemblyStateCreateInfo :=
  { topology := .VK_PRIMITIVE_TOPOLOGY_TRIANGLE_LIST, primitiveRestartEnable := false }

/-- Local `viewport_state_info`: value-initialised, then only the two counts are assigned. -/
def viewport_state_info : VkPipelineViewportStateCreateInfo :=
  { viewportCount := 1, pViewports := none, scissorCount := 1, pScissors := none }

def rasterizer_info : VkPipelineRasterizationStateCreateInfo :=
  { depthClampEnable := false
    rasterizerDiscardEnable := false
    polygonMode := .VK_POLYGON_MODE_FILL
    lineWidth := 1
    cullMode := VK_CULL_MODE_BACK_BIT
    frontFace := .VK_FRONT_FACE_CLOCKWISE
    depthBiasEnable := false
    depthBiasConstantFactor := 0
    depthBiasClamp := 0
    depthBiasSlopeFactor := 0 }

def multisampling_info : VkPipelineMultisampleStateCreateInfo :=
  { sampleShadingEnable := false
    rasterizationSamples := VK_SAMPLE_COUNT_1_BIT
    minSampleShading := 1
    pSampleMask := none
    alphaToCoverageEnable := false
    alphaToOneEnable := false }

def color_blend_attachment : VkPipelineColorBlendAttachmentState :=
  { colorWriteMask :=
      VK_COLOR_COMPONENT_R_BIT ||| VK_COLOR_COMPONENT_G_BIT |||
        VK_COLOR_COMPONENT_B_BIT ||| VK_COLOR_COMPONENT_A_BIT
    blendEnable := false
    srcColorBlendFactor := .VK_BLEND_FACTOR_ONE
    dstColorBlendFactor := .VK_BLEND_FACTOR_ZERO
    colorBlendOp := .VK_BLEND_OP_ADD
    srcAlphaBlendFactor := .VK_BLEND_FACTOR_ONE
    dstAlphaBlendFactor := .VK_BLEND_FACTOR_ZERO
    alphaBlendOp := .VK_BLEND_OP_ADD }

def color_blending_info : VkPipelineColorBlendStateCreateInfo :=
  { logicOpEnable := false
    logicOp := .VK_LOGIC_OP_COPY
    attachmentCount := 1
    pAttachments := some [color_blend_attachment]
    blendConstants := [0, 0, 0, 0] }

def pipeline_layout_info : VkPipelineLayoutCreateInfo :=
  { setLayoutCount := 0, pSetLayouts := none
    pushConstantRangeCount := 0, pPushConstantRanges := none }

/-- Local `pipeline_info` (lines 198-221); `self` is the object after the layout
handle has been stored in `pipeline_layout`. -/
def pipeline_info (self : GraphicsPipeline) (vert_shader_module frag_shader_module : Handle) :
    VkGraphicsPipelineCreateInfo :=
  { stageCount := 2
    pStages := some (shader_stages vert_shader_module frag_shader_module)
    pVertexInputState := some (vertex_input_info self)
    pInputAssemblyState := some input_assembly_info
    pViewportState := some viewport_state_info
    pRasterizationState := some rasterizer_info
    pMultisampleState := some multisampling_info
    pDepthStencilState := none
    pColorBlendState := some color_blending_info
    pDynamicState := some dynamic_state_info
    layout := self.pipeline_layout
    renderPass := self.config_info.render_pass
    subpass := 0
    basePipelineHandle := VK_NULL_HANDLE
    basePipelineIndex := -1 }

/-- What an out pointer's target holds after a failed creation call. -/
def stored_or (stored : Option Handle) (old : Handle) : Handle :=
  match stored with
  | some h => h
  | none => old

/-- `GraphicsPipeline::create_graphics_pipeline()`. Returns how the call ended,
the object's members and the trace at that point. -/
def create_graphics_pipeline (env : Env) (self : GraphicsPipeline) (trace : List DriverCall) :
    Except Abort Unit × GraphicsPipeline × List DriverCall :=
  match env.read_shader_binary self.vert_name with
  | .error what => (.error (.thrown what), self, trace)
  | .ok vert_shader_code =>
  match env.read_shader_binary self.frag_name with
  | .error what => (.error (.thrown what), self, trace)
  | .ok frag_shader_code =>
  match create_shader_module env self vert_shader_code trace with
  | (.error a, trace) => (.error a, self, trace)
  | (.ok vert_shader_module, trace) =>
  match create_shader_module env self frag_shader_code trace with
  | (.error a, trace) => (.error a, self, trace)
  | (.ok frag_shader_module, trace) =>
  let self := assign_vertex_input self
  match self.device with
  | none => (.error .fault, self, trace)
  | some device =>
  match env.vkCreatePipelineLayout trace device.get_logical_device pipeline_layout_info with
  | .failure stored =>
    (.error (.thrown "Failed to create pipeline layout!"),
      { self with pipeline_layout := stored_or stored self.pipeline_layout },
      trace ++ [.vkCreatePipelineLayout device.get_logical_device pipeline_layout_info])
  | .success layout =>
  let self := { self with pipeline_layout := layout }
  let trace := trace ++ [.vkCreatePipelineLayout device.get_logical_device pipeline_layout_info]
  let info := pipeline_info self vert_shader_module frag_shader_module
  match self.device with
  | none => (.error .fault, self, trace)
  | some device =>
  match env.vkCreateGraphicsPipelines trace device.get_logical_device info with
  | .failure stored =>
    (.error (.thrown "Failed to create graphics pipeline!"),
      { self with graphics_pipeline_handle := stored_or stored self.graphics_pipeline_handle },
      trace ++ [.vkCreateGraphicsPipelines device.get_logical_device VK_NULL_HANDLE 1 info])
  | .success pipeline =>
  let self := { self with graphics_pipeline_handle := pipeline }
  let trace := trace ++
    [.vkCreateGraphicsPipelines device.get_logical_device VK_NULL_HANDLE 1 info]
  match self.device with
  | none => (.error .fault, self, trace)
  | some device =>
  let trace := trace ++ [.vkDestroyShaderModule device.get_logical_device frag_shader_module]
  match self.device with
  | none => (.error .fault, self, trace)
  | some device =>
  (.ok (), self, trace ++ [.vkDestroyShaderModule device.get_logical_device vert_shader_module])

/-- The object after the member initialiser list of the constructing
constructor: four members from the arguments, the others at their defaults. -/
def initialised (device : Option LogicalDevice) (vert_name frag_name : String)
    (config_info : GraphicsPipelineConfigInfo) : GraphicsPipeline :=
  { GraphicsPipeline.default with
    device := device, vert_name := vert_name, frag_name := frag_name
    config_info := config_info }

/-- The constructing constructor `GraphicsPipeline(device, vert_name, frag_name,
config_info)`: the initialiser list, then `create_graphics_pipeline()`. -/
def construct (env : Env) (device : Option LogicalDevice) (vert_name frag_name : String)
    (config_info : GraphicsPipelineConfigInfo) (trace : List DriverCall) :
    Except Abort Unit × GraphicsPipeline × List DriverCall :=
  create_graphics_pipeline env (initialised device vert_name frag_name config_info) trace

/-! ### Move assignment

`operator =` works on two objects that may be one and the same (`a = std::move(a)`),
so it is embedded over a store of objects by address. -/

/-- The `GraphicsPipeline` objects by address, and the driver calls made so far. -/
structure State where
  objs : Nat → GraphicsPipeline
  trace : List DriverCall

/-- Assignment to members of the object at address `p`. -/
def State.modify (s : State) (p : Nat) (f : GraphicsPipeline → GraphicsPipeline) : State :=
  { s with objs := fun a => if a = p then f (s.objs a) else s.objs a }

/-- `GraphicsPipeline::operator = (GraphicsPipeline&& source)` on the object at
address `self`, with `source` bound to the object at address `source`. -/
def moveAssign (self source : Nat) (s : State) : Except Abort Unit × State :=
  let r : Except Abort Unit × State :=
    match (s.objs self).device with
    | none => (.ok (), s)
    | some _ =>
      match destroy (s.objs self) s.trace with
      | (r, trace) => (r, { s with trace := trace })
  match r with
  | (.error a, s) => (.error a, s)
  | (.ok (), s) =>
  let s := s.modify self (fun o => { o with vert_name := (s.objs source).vert_name })
  let s := s.modify self (fun o => { o with frag_name := (s.objs source).frag_name })
  let s := s.modify self (fun o => { o with device := (s.objs source).device })
  let s := s.modify self (fun o => { o with pipeline_layout := (s.objs source).pipeline_layout })
  let s := s.modify self (fun o =>
    { o with graphics_pipeline_handle := (s.objs source).graphics_pipeline_handle })
  let s := s.modify self (fun o => { o with config_info := (s.objs source).config_info })
  let s := s.modify source (fun o => { o with vert_name := "" })
  let s := s.modify source (fun o => { o with frag_name := "" })
  let s := s.modify source (fun o => { o with device := none })
  let s := s.modify source (fun o => { o with pipeline_layout := VK_NULL_HANDLE })
  let s := s.modify source (fun o => { o with graphics_pipeline_handle := VK_NULL_HANDLE })
  (.ok (), s)

/-- `GraphicsPipeline::get_graphics_pipeline_handle()`. -/
def get_graphics_pipeline_handle (self : GraphicsPipeline) : Handle :=
  self.graphics_pipeline_handle

/-! ## Fixtures used to run the embedding on concrete inputs -/

/-- A device whose low-level handle is 7. -/
def dev7 : LogicalDevice := { logical_device := 7 }

/-- A constructed builder: device `dev7`, pipeline handle 11, layout handle 12. -/
def builtPipeline : GraphicsPipeline :=
  { device := some dev7
    vert_name := "x.vert"
    frag_name := "x.frag"
    config_info := { render_pass := 5 }
    pipeline_layout := 12
    graphics_pipeline_handle := 11
    vertex_input_binding_description :=
      { binding := 0, stride := 32, inputRate := .VK_VERTEX_INPUT_RATE_VERTEX }
    vertex_input_attribute_descriptions :=
      [position_description, normal_description, tex_coords_description] }

/-- A second constructed builder, on device handle 8, pipeline 21, layout 22. -/
def otherPipeline : GraphicsPipeline :=
  { builtPipeline with
    device := some { logical_device := 8 }
    vert_name := "y.vert"
    frag_name := "y.frag"
    config_info := { render_pass := 6 }
    pipeline_layout := 22
    graphics_pipeline_handle := 21 }

/-- Two objects: `otherPipeline` at address 0, `builtPipeline` at address 1, and
never-constructed builders everywhere else; no driver call made yet. -/
def twoObjects : State :=
  { objs := fun a =>
      if a = 0 then otherPipeline else if a = 1 then builtPipeline else GraphicsPipeline.default
    trace := [] }

/-- A never-constructed destination at address 0 and `builtPipeline` at address 1. -/
def emptyAndBuilt : State :=
  { objs := fun a => if a = 1 then builtPipeline else GraphicsPipeline.default
    trace := [] }

/-- A driver that hands out fresh handles (100 + number of calls so far), refuses
a shader module of zero bytes and refuses a pipeline for render pass 66 (an
incompatible render-target description); `read_shader_binary` knows "x.vert"
and "x.frag", returns zero bytes for "empty.frag" and throws for every other
name. -/
def demoEnv : Env :=
  { read_shader_binary := fun name =>
      if name = "x.vert" then .ok [3, 2, 35, 7]
      else if name = "x.frag" then .ok [3, 2, 35, 7, 0, 0, 1, 0]
      else if name = "empty.frag" then .ok []
      else .error "Failed to open file!"
    vkCreateShaderModule := fun trace _ info =>
      if info.codeSize = 0 then .failure none else .success (100 + trace.length)
    vkCreatePipelineLayout := fun trace _ _ => .success (100 + trace.length)
    vkCreateGraphicsPipelines := fun trace _ info =>
      if info.renderPass = 66 then .failure (some VK_NULL_HANDLE)
      else .success (100 + trace.length) }

/-! ## Vocabulary of the statements -/

/-- The call `create_shader_module(code)` makes on `device`. -/
def shaderModuleCall (device : LogicalDevice) (code : List Nat) : DriverCall :=
  .vkCreateShaderModule device.get_logical_device { codeSize := code.length, pCode := code }

/-- The layout creation call `create_graphics_pipeline` makes on `device`. -/
def layoutCall (device : LogicalDevice) : DriverCall :=
  .vkCreatePipelineLayout device.get_logical_device pipeline_layout_info

/-- Members of a builder inside the constructing constructor at the moment the
pipeline creation record is assembled: initialiser list applied, vertex members
assigned, `layout` stored in `pipeline_layout`. -/
def underConstruction (device : LogicalDevice) (vert_name frag_name : String)
    (config_info : GraphicsPipelineConfigInfo) (layout : Handle) : GraphicsPipeline :=
  { assign_vertex_input (initialised (some device) vert_name frag_name config_info) with
    pipeline_layout := layout }

/-- The pipeline creation call of the constructing constructor, given the two
shader-module handles and the layout handle obtained before it. -/
def pipelineCall (device : LogicalDevice) (vert_name frag_name : String)
    (config_info : GraphicsPipelineConfigInfo) (vert_module frag_module layout : Handle) :
    DriverCall :=
  .vkCreateGraphicsPipelines device.get_logical_device VK_NULL_HANDLE 1
    (pipeline_info (underConstruction device vert_name frag_name config_info layout)
      vert_module frag_module)

/-- The attributes, in the order given, occupy the bytes from `start` up to
`stride` without gap or overlap: each begins where the previous one ends and the
last one ends at `stride`. -/
def tiles : List VkVertexInputAttributeDescription → Nat → Nat → Bool
  | [], start, stride => start == stride
  | a :: rest, start, stride => a.offset == start && tiles rest (start + a.format.size) stride

/-! ## Shared lemmas -/

/-- `destroy()` on a builder with a device: the two calls, normal return. -/
theorem destroy_of_device (g : GraphicsPipeline) (device : LogicalDevice)
    (trace : List DriverCall) (h : g.device = some device) :
    destroy g trace =
      (.ok (), trace ++
        [.vkDestroyPipeline device.logical_device g.graphics_pipeline_handle,
         .vkDestroyPipelineLayout device.logical_device g.pipeline_layout]) := by
  simp [destroy, h, LogicalDevice.get_logical_device]

/-- `destroy()` on a builder with a null device: the fault, no call. -/
theorem destroy_of_null (g : GraphicsPipeline) (trace : List DriverCall)
    (h : g.device = none) : destroy g trace = (.error .fault, trace) := by
  simp [destroy, h]

/-- Reading an object after an assignment to members of the object at `p`. -/
theorem modify_objs (s : State) (p a : Nat) (f : GraphicsPipeline → GraphicsPipeline) :
    (s.modify p f).objs a = if a = p then f (s.objs a) else s.objs a := rfl

/-- Assigning members makes no driver call. -/
theorem modify_trace (s : State) (p : Nat) (f : GraphicsPipeline → GraphicsPipeline) :
    (s.modify p f).trace = s.trace := rfl

/-- `create_graphics_pipeline` never assigns the `device` member. -/
theorem create_graphics_pipeline_device (env : Env) (g : GraphicsPipeline)
    (t0 : List DriverCall) : (create_graphics_pipeline env g t0).2.1.device = g.device := by
  simp only [create_graphics_pipeline, create_shader_module, assign_vertex_input]
  repeat' split
  all_goals simp_all

/-- A builder for which the constructing constructor returns normally was given
a non-null device, and holds that device. -/
theorem construct_ok_device (env : Env) (device : Option LogicalDevice)
    (vert_name frag_name : String) (config_info : GraphicsPipelineConfigInfo)
    (t0 : List DriverCall)
    (h : (construct env device vert_name frag_name config_info t0).1 = .ok ()) :
    ∃ d, device = some d ∧
      (construct env device vert_name frag_name config_info t0).2.1.device = some d := by
  cases device with
  | some d => exact ⟨d, rfl, create_graphics_pipeline_device env _ t0⟩
  | none =>
    exfalso
    revert h
    simp only [construct, create_graphics_pipeline, create_shader_module, initialised,
      GraphicsPipeline.default]
    repeat' split
    all_goals simp_all

/-! ## `destroy` -/

/-- C7: for a builder whose device reference is non-null, `destroy()` returns
normally after exactly two driver calls, in this order: destroy the builder's
pipeline handle, then destroy its pipeline-layout handle, both on the builder's
own device; nothing else is called. -/
theorem destroy_pipeline_then_layout (g : GraphicsPipeline) (device : LogicalDevice)
    (trace : List DriverCall) (h : g.device = some device) :
    ∃ added : List DriverCall,
      destroy g trace = (.ok (), trace ++ added) ∧
      added.length = 2 ∧
      added = [.vkDestroyPipeline device.get_logical_device g.graphics_pipeline_handle,
               .vkDestroyPipelineLayout device.get_logical_device g.pipeline_layout] := by
  refine ⟨_, destroy_of_device g device trace h, rfl, rfl⟩

/-- The builder the constructing constructor yields for `demoEnv`, device
`dev7`, shaders "x.vert" and "x.frag" and render pass 5 is destroyed by the two
calls on its pipeline (103) and its layout (102). -/
theorem destroy_pipeline_then_layout_witness :
    (construct demoEnv (some dev7) "x.vert" "x.frag" { render_pass := 5 } []).1 = .ok () ∧
    (construct demoEnv (some dev7) "x.vert" "x.frag" { render_pass := 5 } []).2.1.device =
      some dev7 ∧
    ∃ added : List DriverCall,
      destroy (construct demoEnv (some dev7) "x.vert" "x.frag" { render_pass := 5 } []).2.1 [] =
        (.ok (), [] ++ added) ∧
      added.length = 2 ∧
      added =
        [.vkDestroyPipeline dev7.get_logical_device
          (construct demoEnv (some dev7) "x.vert" "x.frag"
            { render_pass := 5 } []).2.1.graphics_pipeline_handle,
         .vkDestroyPipelineLayout dev7.get_logical_device
          (construct demoEnv (some dev7) "x.vert" "x.frag"
            { render_pass := 5 } []).2.1.pipeline_layout] :=
  ⟨rfl, rfl,
   destroy_pipeline_then_layout
     (construct demoEnv (some dev7) "x.vert" "x.frag" { render_pass := 5 } []).2.1 dev7 [] rfl⟩

/-- C1, as the code behaves: `destroy()` on the never-constructed builder does not
return: it dereferences the null device (no driver call is made); and a second
`destroy()` on a constructed builder releases the same pipeline and the same
layout handle a second time. -/
theorem destroy_not_idempotent :
    GraphicsPipeline.default.device = none ∧
    GraphicsPipeline.default.pipeline_layout = VK_NULL_HANDLE ∧
    GraphicsPipeline.default.graphics_pipeline_handle = VK_NULL_HANDLE ∧
    destroy GraphicsPipeline.default [] = (.error .fault, []) ∧
    destroy builtPipeline (destroy builtPipeline []).2 =
      (.ok (), [.vkDestroyPipeline 7 11, .vkDestroyPipelineLayout 7 12,
                .vkDestroyPipeline 7 11, .vkDestroyPipelineLayout 7 12]) := by
  refine ⟨rfl, rfl, rfl, rfl, rfl⟩

/-- C1 amended: `destroy()` has no guard and assigns no member. With a null
device reference it makes no driver call and ends in the null dereference; with
a device it makes its two destroy calls, and called again it makes the same two
calls on the same handles again. -/
theorem destroy_unguarded (g : GraphicsPipeline) (trace : List DriverCall) :
    (g.device = none → destroy g trace = (.error .fault, trace)) ∧
    (∀ device, g.device = some device →
      destroy g trace =
        (.ok (), trace ++
          [.vkDestroyPipeline device.get_logical_device g.graphics_pipeline_handle,
           .vkDestroyPipelineLayout device.get_logical_device g.pipeline_layout]) ∧
      destroy g (destroy g trace).2 =
        (.ok (), trace ++
          [.vkDestroyPipeline device.get_logical_device g.graphics_pipeline_handle,
           .vkDestroyPipelineLayout device.get_logical_device g.pipeline_layout,
           .vkDestroyPipeline device.get_logical_device g.graphics_pipeline_handle,
           .vkDestroyPipelineLayout device.get_logical_device g.pipeline_layout])) := by
  refine ⟨destroy_of_null g trace, fun device h => ?_⟩
  simp [destroy_of_device g device _ h, LogicalDevice.get_logical_device]

/-- The never-constructed builder and a double `destroy()` of `builtPipeline`. -/
theorem destroy_unguarded_witness :
    destroy GraphicsPipeline.default [] = (.error .fault, []) ∧
    destroy builtPipeline (destroy builtPipeline []).2 =
      (.ok (), [] ++
        [.vkDestroyPipeline dev7.get_logical_device builtPipeline.graphics_pipeline_handle,
         .vkDestroyPipelineLayout dev7.get_logical_device builtPipeline.pipeline_layout,
         .vkDestroyPipeline dev7.get_logical_device builtPipeline.graphics_pipeline_handle,
         .vkDestroyPipelineLayout dev7.get_logical_device builtPipeline.pipeline_layout]) :=
  ⟨(destroy_unguarded GraphicsPipeline.default []).1 rfl,
   ((destroy_unguarded builtPipeline []).2 dev7 rfl).2⟩

/-! ## Move assignment -/

/-- The driver calls `operator =` makes for a destination object `d`: the two
destroy calls of `d` when its device reference is non-null, none otherwise. -/
theorem moveAssign_trace (s : State) (self source : Nat) :
    (moveAssign self source s).1 = .ok () ∧
    (moveAssign self source s).2.trace = s.trace ++
      (match (s.objs self).device with
       | none => []
       | some device =>
         [.vkDestroyPipeline device.get_logical_device (s.objs self).graphics_pipeline_handle,
          .vkDestroyPipelineLayout device.get_logical_device (s.objs self).pipeline_layout]) := by
  cases h : (s.objs self).device with
  | none => simp [moveAssign, h, modify_trace]
  | some device =>
    simp [moveAssign, h, destroy_of_device _ device _ h, modify_trace,
      LogicalDevice.get_logical_device]

/-- Members of the destination after a move assignment between distinct objects. -/
theorem moveAssign_objs_self (s : State) (self source : Nat) (hne : self ≠ source) :
    (moveAssign self source s).2.objs self =
      { s.objs self with
        vert_name := (s.objs source).vert_name
        frag_name := (s.objs source).frag_name
        device := (s.objs source).device
        pipeline_layout := (s.objs source).pipeline_layout
        graphics_pipeline_handle := (s.objs source).graphics_pipeline_handle
        config_info := (s.objs source).config_info } := by
  have hne2 : source ≠ self := fun h => hne h.symm
  cases h : (s.objs self).device with
  | none => simp [moveAssign, h, modify_objs, hne, hne2]
  | some device =>
    simp [moveAssign, h, destroy_of_device _ device _ h, modify_objs, hne, hne2]

/-- Members of the source after a move assignment between distinct objects. -/
theorem moveAssign_objs_source (s : State) (self source : Nat) (hne : self ≠ source) :
    (moveAssign self source s).2.objs source =
      { s.objs source with
        vert_name := ""
        frag_name := ""
        device := none
        pipeline_layout := VK_NULL_HANDLE
        graphics_pipeline_handle := VK_NULL_HANDLE } := by
  have hne2 : source ≠ self := fun h => hne h.symm
  cases h : (s.objs self).device with
  | none => simp [moveAssign, h, modify_objs, hne, hne2]
  | some device =>
    simp [moveAssign, h, destroy_of_device _ device _ h, modify_objs, hne, hne2]

/-- Objects other than the two operands are untouched by a move assignment. -/
theorem moveAssign_objs_other (s : State) (self source a : Nat)
    (ha1 : a ≠ self) (ha2 : a ≠ source) :
    (moveAssign self source s).2.objs a = s.objs a := by
  cases h : (s.objs self).device with
  | none => simp [moveAssign, h, modify_objs, ha1, ha2]
  | some device =>
    simp [moveAssign, h, destroy_of_device _ device _ h, modify_objs, ha1, ha2]

/-- C3: move assignment between two distinct objects returns normally and
(1) first releases the destination's pipeline and layout when the destination's
device reference is non-null, and makes no driver call when it is null;
(2) the destination then holds the source's shader names, device reference,
layout handle, pipeline handle and config (its other members are kept);
(3) the source is left with empty shader names, a null device reference and
null layout and pipeline handles (its other members are kept). No other object
changes. -/
theorem moveAssign_distinct (s : State) (self source : Nat) (hne : self ≠ source) :
    (moveAssign self source s).1 = .ok () ∧
    (∀ device, (s.objs self).device = some device →
      (moveAssign self source s).2.trace = s.trace ++
        [.vkDestroyPipeline device.get_logical_device (s.objs self).graphics_pipeline_handle,
         .vkDestroyPipelineLayout device.get_logical_device (s.objs self).pipeline_layout]) ∧
    ((s.objs self).device = none → (moveAssign self source s).2.trace = s.trace) ∧
    (moveAssign self source s).2.objs self =
      { s.objs self with
        vert_name := (s.objs source).vert_name
        frag_name := (s.objs source).frag_name
        device := (s.objs source).device
        pipeline_layout := (s.objs source).pipeline_layout
        graphics_pipeline_handle := (s.objs source).graphics_pipeline_handle
        config_info := (s.objs source).config_info } ∧
    (moveAssign self source s).2.objs source =
      { s.objs source with
        vert_name := ""
        frag_name := ""
        device := none
        pipeline_layout := VK_NULL_HANDLE
        graphics_pipeline_handle := VK_NULL_HANDLE } ∧
    (∀ a, a ≠ self → a ≠ source → (moveAssign self source s).2.objs a = s.objs a) := by
  refine ⟨(moveAssign_trace s self source).1, ?_, ?_, moveAssign_objs_self s self source hne,
    moveAssign_objs_source s self source hne,
    fun a ha1 ha2 => moveAssign_objs_other s self source a ha1 ha2⟩
  · intro device h
    rw [(moveAssign_trace s self source).2, h]
  · intro h
    rw [(moveAssign_trace s self source).2, h]
    simp

/-- C10: self move assignment of a builder with a non-null device returns
normally, first issues the destroy calls for the builder's own pipeline and
layout, and leaves the builder with empty shader names, a null device reference
and null pipeline and layout handles. -/
theorem moveAssign_self (s : State) (b : Nat) (device : LogicalDevice)
    (h : (s.objs b).device = some device) :
    (moveAssign b b s).1 = .ok () ∧
    (moveAssign b b s).2.trace = s.trace ++
      [.vkDestroyPipeline device.get_logical_device (s.objs b).graphics_pipeline_handle,
       .vkDestroyPipelineLayout device.get_logical_device (s.objs b).pipeline_layout] ∧
    ((moveAssign b b s).2.objs b).device = none ∧
    ((moveAssign b b s).2.objs b).graphics_pipeline_handle = VK_NULL_HANDLE ∧
    ((moveAssign b b s).2.objs b).pipeline_layout = VK_NULL_HANDLE ∧
    ((moveAssign b b s).2.objs b).vert_name = "" ∧
    ((moveAssign b b s).2.objs b).frag_name = "" := by
  refine ⟨(moveAssign_trace s b b).1, ?_, ?_, ?_, ?_, ?_, ?_⟩
  · rw [(moveAssign_trace s b b).2, h]
  all_goals simp [moveAssign, h, destroy_of_device _ device _ h, modify_objs]

/-- Moving `builtPipeline` (address 1) into `otherPipeline` (address 0) first
releases the destination's pipeline 21 and layout 22 on device 8. -/
theorem moveAssign_distinct_witness :
    (0 : Nat) ≠ 1 ∧
    (moveAssign 0 1 twoObjects).2.trace =
      twoObjects.trace ++
        [.vkDestroyPipeline (LogicalDevice.mk 8).get_logical_device
            (twoObjects.objs 0).graphics_pipeline_handle,
         .vkDestroyPipelineLayout (LogicalDevice.mk 8).get_logical_device
            (twoObjects.objs 0).pipeline_layout] :=
  ⟨by decide, (moveAssign_distinct twoObjects 0 1 (by decide)).2.1 _ rfl⟩

/-- Self move of `builtPipeline` at address 1 leaves it without a device. -/
theorem moveAssign_self_witness :
    (twoObjects.objs 1).device = some dev7 ∧
    ((moveAssign 1 1 twoObjects).2.objs 1).device = none :=
  ⟨rfl, (moveAssign_self twoObjects 1 dev7 rfl).2.2.1⟩

/-- C2, as the code behaves: after `D = move(S)` with `S` constructed and `D`
never constructed, `S.destroy()` is not a no-op: `S`'s device reference is null
and `destroy()` dereferences it. After the self move `S = move(S)` the same
holds of the destination, whose resources the assignment has already released. -/
theorem moved_from_destroy_faults :
    (emptyAndBuilt.objs 1).device = some dev7 ∧
    (moveAssign 0 1 emptyAndBuilt).1 = .ok () ∧
    destroy ((moveAssign 0 1 emptyAndBuilt).2.objs 1) (moveAssign 0 1 emptyAndBuilt).2.trace =
      (.error .fault, []) ∧
    destroy ((moveAssign 1 1 emptyAndBuilt).2.objs 1) (moveAssign 1 1 emptyAndBuilt).2.trace =
      (.error .fault, [.vkDestroyPipeline 7 11, .vkDestroyPipelineLayout 7 12]) := by
  refine ⟨rfl, rfl, rfl, rfl⟩

/-- C2 amended: after `D = move(S)` with `S` constructed (non-null device) and
`D` a distinct object, `S` holds a null device reference and null handles, so
`S.destroy()` makes no driver call but ends in the null dereference; and
`D.destroy()` returns normally after releasing exactly the pipeline handle and
the layout handle `S` held, each once, on `S`'s device. -/
theorem moveAssign_then_destroy (s : State) (self source : Nat) (device : LogicalDevice)
    (hne : self ≠ source) (h : (s.objs source).device = some device) :
    (moveAssign self source s).1 = .ok () ∧
    ((moveAssign self source s).2.objs source).device = none ∧
    ((moveAssign self source s).2.objs source).graphics_pipeline_handle = VK_NULL_HANDLE ∧
    ((moveAssign self source s).2.objs source).pipeline_layout = VK_NULL_HANDLE ∧
    destroy ((moveAssign self source s).2.objs source) (moveAssign self source s).2.trace =
      (.error .fault, (moveAssign self source s).2.trace) ∧
    destroy ((moveAssign self source s).2.objs self) (moveAssign self source s).2.trace =
      (.ok (), (moveAssign self source s).2.trace ++
        [.vkDestroyPipeline device.get_logical_device (s.objs source).graphics_pipeline_handle,
         .vkDestroyPipelineLayout device.get_logical_device (s.objs source).pipeline_layout]) := by
  have hok := (moveAssign_trace s self source).1
  have hself := moveAssign_objs_self s self source hne
  have hsrc := moveAssign_objs_source s self source hne
  refine ⟨hok, ?_, ?_, ?_, ?_, ?_⟩
  · rw [hsrc]
  · rw [hsrc]
  · rw [hsrc]
  · exact destroy_of_null _ _ (by rw [hsrc])
  · rw [destroy_of_device _ device _ (by rw [hself]; exact h), hself]
    rfl

/-- After moving `builtPipeline` into address 0, destroying the destination
releases the handles `builtPipeline` held, on device 7. -/
theorem moveAssign_then_destroy_witness :
    (0 : Nat) ≠ 1 ∧ (twoObjects.objs 1).device = some dev7 ∧
    destroy ((moveAssign 0 1 twoObjects).2.objs 0) (moveAssign 0 1 twoObjects).2.trace =
      (.ok (), (moveAssign 0 1 twoObjects).2.trace ++
        [.vkDestroyPipeline dev7.get_logical_device (twoObjects.objs 1).graphics_pipeline_handle,
         .vkDestroyPipelineLayout dev7.get_logical_device (twoObjects.objs 1).pipeline_layout]) :=
  ⟨by decide, rfl, (moveAssign_then_destroy twoObjects 0 1 dev7 (by decide) rfl).2.2.2.2.2⟩

/-! ## Construction -/

/-- The run of `create_graphics_pipeline` inside the constructing constructor up
to and including the pipeline creation call, when both loads, both shader-module
creations and the layout creation succeed. -/
theorem construct_reaches_pipeline (env : Env) (device : LogicalDevice)
    (vert_name frag_name : String) (config_info : GraphicsPipelineConfigInfo)
    (t0 : List DriverCall) (vc fc : List Nat) (vm fm pl : Handle)
    (hv : env.read_shader_binary vert_name = .ok vc)
    (hf : env.read_shader_binary frag_name = .ok fc)
    (h1 : env.vkCreateShaderModule t0 device.get_logical_device
            { codeSize := vc.length, pCode := vc } = .success vm)
    (h2 : env.vkCreateShaderModule (t0 ++ [shaderModuleCall device vc])
            device.get_logical_device { codeSize := fc.length, pCode := fc } = .success fm)
    (h3 : env.vkCreatePipelineLayout
            (t0 ++ [shaderModuleCall device vc, shaderModuleCall device fc])
            device.get_logical_device pipeline_layout_info = .success pl) :
    construct env (some device) vert_name frag_name config_info t0 =
      match env.vkCreateGraphicsPipelines
          (t0 ++ [shaderModuleCall device vc, shaderModuleCall device fc, layoutCall device])
          device.get_logical_device
          (pipeline_info (underConstruction device vert_name frag_name config_info pl) vm fm) with
      | .failure stored =>
        (.error (.thrown "Failed to create graphics pipeline!"),
          { underConstruction device vert_name frag_name config_info pl with
            graphics_pipeline_handle := stored_or stored VK_NULL_HANDLE },
          t0 ++ [shaderModuleCall device vc, shaderModuleCall device fc, layoutCall device,
                 pipelineCall device vert_name frag_name config_info vm fm pl])
      | .success pipeline =>
        (.ok (),
          { underConstruction device vert_name frag_name config_info pl with
            graphics_pipeline_handle := pipeline },
          t0 ++ [shaderModuleCall device vc, shaderModuleCall device fc, layoutCall device,
                 pipelineCall device vert_name frag_name config_info vm fm pl,
                 .vkDestroyShaderModule device.get_logical_device fm,
                 .vkDestroyShaderModule device.get_logical_device vm]) := by
  simp only [shaderModuleCall, layoutCall, pipelineCall, underConstruction] at *
  simp only [construct, create_graphics_pipeline, create_shader_module, hv, hf, h1,
    assign_vertex_input, initialised, GraphicsPipeline.default, List.append_assoc, List.singleton_append,
    List.cons_append, List.nil_append, h2, h3]

/-- Under the same conditions the trace of the constructor is the three earlier
calls, the pipeline creation call, and whatever follows it. -/
theorem construct_pipeline_call_made (env : Env) (device : LogicalDevice)
    (vert_name frag_name : String) (config_info : GraphicsPipelineConfigInfo)
    (t0 : List DriverCall) (vc fc : List Nat) (vm fm pl : Handle)
    (hv : env.read_shader_binary vert_name = .ok vc)
    (hf : env.read_shader_binary frag_name = .ok fc)
    (h1 : env.vkCreateShaderModule t0 device.get_logical_device
            { codeSize := vc.length, pCode := vc } = .success vm)
    (h2 : env.vkCreateShaderModule (t0 ++ [shaderModuleCall device vc])
            device.get_logical_device { codeSize := fc.length, pCode := fc } = .success fm)
    (h3 : env.vkCreatePipelineLayout
            (t0 ++ [shaderModuleCall device vc, shaderModuleCall device fc])
            device.get_logical_device pipeline_layout_info = .success pl) :
    ∃ rest : List DriverCall,
      (construct env (some device) vert_name frag_name config_info t0).2.2 =
        t0 ++ [shaderModuleCall device vc, shaderModuleCall device fc, layoutCall device,
               .vkCreateGraphicsPipelines device.get_logical_device VK_NULL_HANDLE 1
                 (pipeline_info (underConstruction device vert_name frag_name config_info pl)
                   vm fm)] ++ rest := by
  rw [construct_reaches_pipeline env device vert_name frag_name config_info t0 vc fc vm fm pl
    hv hf h1 h2 h3]
  cases env.vkCreateGraphicsPipelines
      (t0 ++ [shaderModuleCall device vc, shaderModuleCall device fc, layoutCall device])
      device.get_logical_device
      (pipeline_info (underConstruction device vert_name frag_name config_info pl) vm fm) with
  | failure stored => exact ⟨[], by simp [pipelineCall]⟩
  | success pipeline =>
    exact ⟨[.vkDestroyShaderModule device.get_logical_device fm,
            .vkDestroyShaderModule device.get_logical_device vm], by simp [pipelineCall]⟩

/-- C5: when both loads and all four creation calls succeed, the constructor
returns normally and its driver calls are, in order: create the vertex shader
module, create the fragment shader module, create the pipeline layout, create
the pipeline, destroy the fragment shader module, destroy the vertex shader
module. The pipeline record names exactly 2 stages (vertex then fragment, entry
point "main"), the layout just created, the config's render pass and subpass 0.
The only destroy calls are the two shader-module ones, one per module created,
and the builder ends up holding the layout and pipeline handles the driver
returned. -/
theorem construct_success_order (env : Env) (device : LogicalDevice)
    (vert_name frag_name : String) (config_info : GraphicsPipelineConfigInfo)
    (t0 : List DriverCall) (vc fc : List Nat) (vm fm pl gp : Handle)
    (hv : env.read_shader_binary vert_name = .ok vc)
    (hf : env.read_shader_binary frag_name = .ok fc)
    (h1 : env.vkCreateShaderModule t0 device.get_logical_device
            { codeSize := vc.length, pCode := vc } = .success vm)
    (h2 : env.vkCreateShaderModule (t0 ++ [shaderModuleCall device vc])
            device.get_logical_device { codeSize := fc.length, pCode := fc } = .success fm)
    (h3 : env.vkCreatePipelineLayout
            (t0 ++ [shaderModuleCall device vc, shaderModuleCall device fc])
            device.get_logical_device pipeline_layout_info = .success pl)
    (h4 : env.vkCreateGraphicsPipelines
            (t0 ++ [shaderModuleCall device vc, shaderModuleCall device fc, layoutCall device])
            device.get_logical_device
            (pipeline_info (underConstruction device vert_name frag_name config_info pl) vm fm)
          = .success gp) :
    ∃ (g : GraphicsPipeline) (info : VkGraphicsPipelineCreateInfo) (added : List DriverCall),
      construct env (some device) vert_name frag_name config_info t0 = (.ok (), g, t0 ++ added) ∧
      added =
        [.vkCreateShaderModule device.get_logical_device { codeSize := vc.length, pCode := vc },
         .vkCreateShaderModule device.get_logical_device { codeSize := fc.length, pCode := fc },
         .vkCreatePipelineLayout device.get_logical_device pipeline_layout_info,
         .vkCreateGraphicsPipelines device.get_logical_device VK_NULL_HANDLE 1 info,
         .vkDestroyShaderModule device.get_logical_device fm,
         .vkDestroyShaderModule device.get_logical_device vm] ∧
      info.stageCount = 2 ∧
      info.pStages =
        some [{ stage := .VK_SHADER_STAGE_VERTEX_BIT, module := vm, pName := "main" },
              { stage := .VK_SHADER_STAGE_FRAGMENT_BIT, module := fm, pName := "main" }] ∧
      info.layout = pl ∧
      info.renderPass = config_info.render_pass ∧
      info.subpass = 0 ∧
      added.filter DriverCall.isDestroy =
        [.vkDestroyShaderModule device.get_logical_device fm,
         .vkDestroyShaderModule device.get_logical_device vm] ∧
      g.pipeline_layout = pl ∧
      g.graphics_pipeline_handle = gp := by
  refine ⟨{ underConstruction device vert_name frag_name config_info pl with
              graphics_pipeline_handle := gp },
    pipeline_info (underConstruction device vert_name frag_name config_info pl) vm fm,
    _, ?_, rfl, rfl, rfl, rfl, rfl, rfl, ?_, ?_, ?_⟩
  · rw [construct_reaches_pipeline env device vert_name frag_name config_info t0 vc fc vm fm pl
      hv hf h1 h2 h3, h4]
    rfl
  · simp [DriverCall.isDestroy]
  · rfl
  · rfl

/-- The success path run on `demoEnv`: handles 100, 101, 102, 103 in order. -/
theorem construct_success_order_witness :
    demoEnv.read_shader_binary "x.vert" = .ok [3, 2, 35, 7] ∧
    demoEnv.read_shader_binary "x.frag" = .ok [3, 2, 35, 7, 0, 0, 1, 0] ∧
    ∃ (g : GraphicsPipeline) (info : VkGraphicsPipelineCreateInfo) (added : List DriverCall),
      construct demoEnv (some dev7) "x.vert" "x.frag" { render_pass := 5 } [] =
        (.ok (), g, [] ++ added) ∧
      added =
        [.vkCreateShaderModule dev7.get_logical_device
            { codeSize := [3, 2, 35, 7].length, pCode := [3, 2, 35, 7] },
         .vkCreateShaderModule dev7.get_logical_device
            { codeSize := [3, 2, 35, 7, 0, 0, 1, 0].length, pCode := [3, 2, 35, 7, 0, 0, 1, 0] },
         .vkCreatePipelineLayout dev7.get_logical_device pipeline_layout_info,
         .vkCreateGraphicsPipelines dev7.get_logical_device VK_NULL_HANDLE 1 info,
         .vkDestroyShaderModule dev7.get_logical_device 101,
         .vkDestroyShaderModule dev7.get_logical_device 100] ∧
      info.stageCount = 2 ∧
      info.pStages =
        some [{ stage := .VK_SHADER_STAGE_VERTEX_BIT, module := 100, pName := "main" },
              { stage := .VK_SHADER_STAGE_FRAGMENT_BIT, module := 101, pName := "main" }] ∧
      info.layout = 102 ∧
      info.renderPass = (GraphicsPipelineConfigInfo.mk 5).render_pass ∧
      info.subpass = 0 ∧
      added.filter DriverCall.isDestroy =
        [.vkDestroyShaderModule dev7.get_logical_device 101,
         .vkDestroyShaderModule dev7.get_logical_device 100] ∧
      g.pipeline_layout = 102 ∧
      g.graphics_pipeline_handle = 103 :=
  ⟨rfl, rfl,
   construct_success_order demoEnv dev7 "x.vert" "x.frag" { render_pass := 5 } []
     [3, 2, 35, 7] [3, 2, 35, 7, 0, 0, 1, 0] 100 101 102 103 rfl rfl rfl rfl rfl rfl⟩

/-- C8: in the constructing constructor, whenever execution reaches pipeline
creation (both loads, both shader modules and the layout succeeded), the vertex
input state of the pipeline record has exactly one binding (binding 0,
per-vertex rate, stride 32 = 4 * (3 + 3 + 2) bytes) and exactly three
attributes, all on binding 0: location 0 at offset 0 (3 x float32), location 1
at offset 12 (3 x float32), location 2 at offset 24 (2 x float32); the declared
attribute count is 3, the length of the list; and the attributes tile the stride
without gap or overlap. -/
theorem construct_vertex_layout (env : Env) (device : LogicalDevice)
    (vert_name frag_name : String) (config_info : GraphicsPipelineConfigInfo)
    (t0 : List DriverCall) (vc fc : List Nat) (vm fm pl : Handle)
    (hv : env.read_shader_binary vert_name = .ok vc)
    (hf : env.read_shader_binary frag_name = .ok fc)
    (h1 : env.vkCreateShaderModule t0 device.get_logical_device
            { codeSize := vc.length, pCode := vc } = .success vm)
    (h2 : env.vkCreateShaderModule (t0 ++ [shaderModuleCall device vc])
            device.get_logical_device { codeSize := fc.length, pCode := fc } = .success fm)
    (h3 : env.vkCreatePipelineLayout
            (t0 ++ [shaderModuleCall device vc, shaderModuleCall device fc])
            device.get_logical_device pipeline_layout_info = .success pl) :
    ∃ (info : VkGraphicsPipelineCreateInfo) (rest : List DriverCall)
      (vertex : VkPipelineVertexInputStateCreateInfo)
      (binding : VkVertexInputBindingDescription)
      (attributes : List VkVertexInputAttributeDescription),
      (construct env (some device) vert_name frag_name config_info t0).2.2 =
        t0 ++ [shaderModuleCall device vc, shaderModuleCall device fc, layoutCall device,
               .vkCreateGraphicsPipelines device.get_logical_device VK_NULL_HANDLE 1 info]
          ++ rest ∧
      info.pVertexInputState = some vertex ∧
      vertex.vertexBindingDescriptionCount = 1 ∧
      vertex.pVertexBindingDescriptions = some [binding] ∧
      binding = { binding := 0, stride := 32, inputRate := .VK_VERTEX_INPUT_RATE_VERTEX } ∧
      binding.stride = 4 * (3 + 3 + 2) ∧
      vertex.vertexAttributeDescriptionCount = 3 ∧
      vertex.vertexAttributeDescriptionCount = attributes.length ∧
      vertex.pVertexAttributeDescriptions = some attributes ∧
      attributes =
        [{ location := 0, binding := 0, format := .VK_FORMAT_R32G32B32_SFLOAT, offset := 0 },
         { location := 1, binding := 0, format := .VK_FORMAT_R32G32B32_SFLOAT, offset := 12 },
         { location := 2, binding := 0, format := .VK_FORMAT_R32G32_SFLOAT, offset := 24 }] ∧
      VkFormat.VK_FORMAT_R32G32B32_SFLOAT.size = 4 * 3 ∧
      VkFormat.VK_FORMAT_R32G32_SFLOAT.size = 4 * 2 ∧
      tiles attributes 0 binding.stride = true := by
  obtain ⟨rest, hrest⟩ := construct_pipeline_call_made env device vert_name frag_name
    config_info t0 vc fc vm fm pl hv hf h1 h2 h3
  exact ⟨_, rest,
    vertex_input_info (underConstruction device vert_name frag_name config_info pl),
    (underConstruction device vert_name frag_name config_info pl).vertex_input_binding_description,
    (underConstruction device vert_name frag_name config_info pl).vertex_input_attribute_descriptions,
    hrest, rfl, rfl, rfl, rfl, rfl, rfl, rfl, rfl, rfl, rfl, rfl, rfl⟩

/-- The vertex layout of the pipeline record on the `demoEnv` run. -/
theorem construct_vertex_layout_witness :
    demoEnv.read_shader_binary "x.vert" = .ok [3, 2, 35, 7] ∧
    demoEnv.read_shader_binary "x.frag" = .ok [3, 2, 35, 7, 0, 0, 1, 0] ∧
    ∃ (info : VkGraphicsPipelineCreateInfo) (rest : List DriverCall)
      (vertex : VkPipelineVertexInputStateCreateInfo)
      (binding : VkVertexInputBindingDescription)
      (attributes : List VkVertexInputAttributeDescription),
      (construct demoEnv (some dev7) "x.vert" "x.frag" { render_pass := 5 } []).2.2 =
        [] ++ [shaderModuleCall dev7 [3, 2, 35, 7],
               shaderModuleCall dev7 [3, 2, 35, 7, 0, 0, 1, 0], layoutCall dev7,
               .vkCreateGraphicsPipelines dev7.get_logical_device VK_NULL_HANDLE 1 info]
          ++ rest ∧
      info.pVertexInputState = some vertex ∧
      vertex.vertexBindingDescriptionCount = 1 ∧
      vertex.pVertexBindingDescriptions = some [binding] ∧
      binding = { binding := 0, stride := 32, inputRate := .VK_VERTEX_INPUT_RATE_VERTEX } ∧
      binding.stride = 4 * (3 + 3 + 2) ∧
      vertex.vertexAttributeDescriptionCount = 3 ∧
      vertex.vertexAttributeDescriptionCount = attributes.length ∧
      vertex.pVertexAttributeDescriptions = some attributes ∧
      attributes =
        [{ location := 0, binding := 0, format := .VK_FORMAT_R32G32B32_SFLOAT, offset := 0 },
         { location := 1, binding := 0, format := .VK_FORMAT_R32G32B32_SFLOAT, offset := 12 },
         { location := 2, binding := 0, format := .VK_FORMAT_R32G32_SFLOAT, offset := 24 }] ∧
      VkFormat.VK_FORMAT_R32G32B32_SFLOAT.size = 4 * 3 ∧
      VkFormat.VK_FORMAT_R32G32_SFLOAT.size = 4 * 2 ∧
      tiles attributes 0 binding.stride = true :=
  ⟨rfl, rfl,
   construct_vertex_layout demoEnv dev7 "x.vert" "x.frag" { render_pass := 5 } []
     [3, 2, 35, 7] [3, 2, 35, 7, 0, 0, 1, 0] 100 101 102 rfl rfl rfl rfl rfl⟩

/-- C9: the pipeline record the constructor hands to pipeline creation declares
exactly two dynamic states, viewport and scissor (the declared count, 2, is the
length of the list), and its viewport state carries only the counts: viewport
count 1 and scissor count 1, with null viewport and scissor pointers. -/
theorem construct_dynamic_viewport (env : Env) (device : LogicalDevice)
    (vert_name frag_name : String) (config_info : GraphicsPipelineConfigInfo)
    (t0 : List DriverCall) (vc fc : List Nat) (vm fm pl : Handle)
    (hv : env.read_shader_binary vert_name = .ok vc)
    (hf : env.read_shader_binary frag_name = .ok fc)
    (h1 : env.vkCreateShaderModule t0 device.get_logical_device
            { codeSize := vc.length, pCode := vc } = .success vm)
    (h2 : env.vkCreateShaderModule (t0 ++ [shaderModuleCall device vc])
            device.get_logical_device { codeSize := fc.length, pCode := fc } = .success fm)
    (h3 : env.vkCreatePipelineLayout
            (t0 ++ [shaderModuleCall device vc, shaderModuleCall device fc])
            device.get_logical_device pipeline_layout_info = .success pl) :
    ∃ (info : VkGraphicsPipelineCreateInfo) (rest : List DriverCall)
      (dynamic : VkPipelineDynamicStateCreateInfo) (states : List VkDynamicState)
      (viewport : VkPipelineViewportStateCreateInfo),
      (construct env (some device) vert_name frag_name config_info t0).2.2 =
        t0 ++ [shaderModuleCall device vc, shaderModuleCall device fc, layoutCall device,
               .vkCreateGraphicsPipelines device.get_logical_device VK_NULL_HANDLE 1 info]
          ++ rest ∧
      info.pDynamicState = some dynamic ∧
      dynamic.pDynamicStates = some states ∧
      states = [.VK_DYNAMIC_STATE_VIEWPORT, .VK_DYNAMIC_STATE_SCISSOR] ∧
      dynamic.dynamicStateCount = states.length ∧
      dynamic.dynamicStateCount = 2 ∧
      info.pViewportState = some viewport ∧
      viewport.viewportCount = 1 ∧
      viewport.scissorCount = 1 ∧
      viewport.pViewports = none ∧
      viewport.pScissors = none := by
  obtain ⟨rest, hrest⟩ := construct_pipeline_call_made env device vert_name frag_name
    config_info t0 vc fc vm fm pl hv hf h1 h2 h3
  exact ⟨_, rest, dynamic_state_info, dynamic_states, viewport_state_info,
    hrest, rfl, rfl, rfl, rfl, rfl, rfl, rfl, rfl, rfl, rfl⟩

/-- The dynamic and viewport state of the pipeline record on the `demoEnv` run. -/
theorem construct_dynamic_viewport_witness :
    demoEnv.read_shader_binary "x.vert" = .ok [3, 2, 35, 7] ∧
    demoEnv.read_shader_binary "x.frag" = .ok [3, 2, 35, 7, 0, 0, 1, 0] ∧
    ∃ (info : VkGraphicsPipelineCreateInfo) (rest : List DriverCall)
      (dynamic : VkPipelineDynamicStateCreateInfo) (states : List VkDynamicState)
      (viewport : VkPipelineViewportStateCreateInfo),
      (construct demoEnv (some dev7) "x.vert" "x.frag" { render_pass := 5 } []).2.2 =
        [] ++ [shaderModuleCall dev7 [3, 2, 35, 7],
               shaderModuleCall dev7 [3, 2, 35, 7, 0, 0, 1, 0], layoutCall dev7,
               .vkCreateGraphicsPipelines dev7.get_logical_device VK_NULL_HANDLE 1 info]
          ++ rest ∧
      info.pDynamicState = some dynamic ∧
      dynamic.pDynamicStates = some states ∧
      states = [.VK_DYNAMIC_STATE_VIEWPORT, .VK_DYNAMIC_STATE_SCISSOR] ∧
      dynamic.dynamicStateCount = states.length ∧
      dynamic.dynamicStateCount = 2 ∧
      info.pViewportState = some viewport ∧
      viewport.viewportCount = 1 ∧
      viewport.scissorCount = 1 ∧
      viewport.pViewports = none ∧
      viewport.pScissors = none :=
  ⟨rfl, rfl,
   construct_dynamic_viewport demoEnv dev7 "x.vert" "x.frag" { render_pass := 5 } []
     [3, 2, 35, 7] [3, 2, 35, 7, 0, 0, 1, 0] 100 101 102 rfl rfl rfl rfl rfl⟩

/-- C6: when the vertex shader loads and its shader module is created, but the
fragment bytecode is rejected (its load throws, or the driver refuses to create
a shader module from it), the constructor ends with that exception (what the
load threw, or "Failed to create shader module!"); the only driver calls it has
made are shader-module creation calls, so no layout and no pipeline creation
call is issued; and no member of the builder has been assigned since the
initialiser list, so its layout and pipeline handles are still null. -/
theorem construct_fragment_rejected (env : Env) (device : LogicalDevice)
    (vert_name frag_name : String) (config_info : GraphicsPipelineConfigInfo)
    (t0 : List DriverCall) (vc : List Nat) (vm : Handle)
    (hv : env.read_shader_binary vert_name = .ok vc)
    (h1 : env.vkCreateShaderModule t0 device.get_logical_device
            { codeSize := vc.length, pCode := vc } = .success vm)
    (hrej : (∃ what, env.read_shader_binary frag_name = .error what) ∨
            (∃ fc stored, env.read_shader_binary frag_name = .ok fc ∧
              env.vkCreateShaderModule (t0 ++ [shaderModuleCall device vc])
                device.get_logical_device { codeSize := fc.length, pCode := fc }
                = .failure stored)) :
    ∃ (what : String) (g : GraphicsPipeline) (added : List DriverCall),
      construct env (some device) vert_name frag_name config_info t0 =
        (.error (.thrown what), g, t0 ++ added) ∧
      (env.read_shader_binary frag_name = .error what ∨
        what = "Failed to create shader module!") ∧
      (∀ c ∈ added, c.isCreateShaderModule = true) ∧
      (∀ d i, DriverCall.vkCreatePipelineLayout d i ∉ added) ∧
      (∀ d c n i, DriverCall.vkCreateGraphicsPipelines d c n i ∉ added) ∧
      g = initialised (some device) vert_name frag_name config_info ∧
      g.pipeline_layout = VK_NULL_HANDLE ∧
      g.graphics_pipeline_handle = VK_NULL_HANDLE := by
  rcases hrej with ⟨what, hf⟩ | ⟨fc, stored, hf, h2⟩
  · refine ⟨what, initialised (some device) vert_name frag_name config_info, [],
      ?_, Or.inl hf, by simp, by simp, by simp, rfl, ?_, ?_⟩
    · simp [construct, create_graphics_pipeline, initialised, hv, hf]
    · rfl
    · rfl
  · refine ⟨"Failed to create shader module!",
      initialised (some device) vert_name frag_name config_info,
      [shaderModuleCall device vc, shaderModuleCall device fc], ?_, Or.inr rfl, ?_, ?_, ?_, rfl,
      ?_, ?_⟩
    · simp only [shaderModuleCall] at h2 ⊢
      simp [construct, create_graphics_pipeline, create_shader_module, initialised, hv, hf,
        h1, h2]
    · simp [shaderModuleCall, DriverCall.isCreateShaderModule]
    · simp [shaderModuleCall]
    · simp [shaderModuleCall]
    · rfl
    · rfl

/-- A fragment shader of zero bytes, refused by the driver of `demoEnv`. -/
theorem construct_fragment_rejected_witness :
    demoEnv.read_shader_binary "x.vert" = .ok [3, 2, 35, 7] ∧
    demoEnv.read_shader_binary "empty.frag" = .ok [] ∧
    ∃ (what : String) (g : GraphicsPipeline) (added : List DriverCall),
      construct demoEnv (some dev7) "x.vert" "empty.frag" { render_pass := 5 } [] =
        (.error (.thrown what), g, [] ++ added) ∧
      (demoEnv.read_shader_binary "empty.frag" = .error what ∨
        what = "Failed to create shader module!") ∧
      (∀ c ∈ added, c.isCreateShaderModule = true) ∧
      (∀ d i, DriverCall.vkCreatePipelineLayout d i ∉ added) ∧
      (∀ d c n i, DriverCall.vkCreateGraphicsPipelines d c n i ∉ added) ∧
      g = initialised (some dev7) "x.vert" "empty.frag" { render_pass := 5 } ∧
      g.pipeline_layout = VK_NULL_HANDLE ∧
      g.graphics_pipeline_handle = VK_NULL_HANDLE :=
  ⟨rfl, rfl,
   construct_fragment_rejected demoEnv dev7 "x.vert" "empty.frag" { render_pass := 5 } []
     [3, 2, 35, 7] 100 rfl rfl (Or.inr ⟨[], none, rfl, rfl⟩)⟩

/-- On every run of `create_graphics_pipeline` that does not return normally, the
calls it has added to the trace contain no destroy call of any kind. -/
theorem create_graphics_pipeline_abort_no_destroy (env : Env) (g : GraphicsPipeline)
    (t0 : List DriverCall) (h : (create_graphics_pipeline env g t0).1 ≠ .ok ()) :
    ∃ added : List DriverCall,
      (create_graphics_pipeline env g t0).2.2 = t0 ++ added ∧
      ∀ c ∈ added, c.isDestroy = false := by
  cases hv : env.read_shader_binary g.vert_name with
  | error e => exact ⟨[], by simp [create_graphics_pipeline, hv], by simp⟩
  | ok vc =>
  cases hf : env.read_shader_binary g.frag_name with
  | error e => exact ⟨[], by simp [create_graphics_pipeline, hv, hf], by simp⟩
  | ok fc =>
  cases hd : g.device with
  | none =>
    exact ⟨[], by simp [create_graphics_pipeline, create_shader_module, hv, hf, hd], by simp⟩
  | some device =>
  cases h1 : env.vkCreateShaderModule t0 device.get_logical_device
      { codeSize := vc.length, pCode := vc } with
  | failure stored =>
    exact ⟨[shaderModuleCall device vc],
      by simp [create_graphics_pipeline, create_shader_module, hv, hf, hd, h1, shaderModuleCall],
      by simp [shaderModuleCall, DriverCall.isDestroy]⟩
  | success vm =>
  cases h2 : env.vkCreateShaderModule (t0 ++ [shaderModuleCall device vc])
      device.get_logical_device { codeSize := fc.length, pCode := fc } with
  | failure stored =>
    simp only [shaderModuleCall] at h2
    exact ⟨[shaderModuleCall device vc, shaderModuleCall device fc],
      by simp [create_graphics_pipeline, create_shader_module, hv, hf, hd, h1, h2,
        shaderModuleCall],
      by simp [shaderModuleCall, DriverCall.isDestroy]⟩
  | success fm =>
  simp only [shaderModuleCall] at h2
  cases h3 : env.vkCreatePipelineLayout
      (t0 ++ [shaderModuleCall device vc, shaderModuleCall device fc])
      device.get_logical_device pipeline_layout_info with
  | failure stored =>
    simp only [shaderModuleCall] at h3
    exact ⟨[shaderModuleCall device vc, shaderModuleCall device fc, layoutCall device],
      by simp [create_graphics_pipeline, create_shader_module, hv, hf, hd, h1, h2, h3,
        shaderModuleCall, layoutCall, assign_vertex_input],
      by simp [shaderModuleCall, layoutCall, DriverCall.isDestroy]⟩
  | success pl =>
  simp only [shaderModuleCall] at h3
  simp only [create_graphics_pipeline, create_shader_module, hv, hf, hd, h1, h2, h3,
    assign_vertex_input, List.append_assoc, List.cons_append, List.nil_append,
    List.singleton_append] at h ⊢
  split
  · rename_i stored h4
    exact ⟨[shaderModuleCall device vc, shaderModuleCall device fc, layoutCall device,
        .vkCreateGraphicsPipelines device.get_logical_device VK_NULL_HANDLE 1 _],
      rfl, by simp [shaderModuleCall, layoutCall, DriverCall.isDestroy]⟩
  · rename_i gp h4
    simp [h4] at h

/-- C4, on the code: with valid shaders and a config whose render pass the
driver rejects, the constructor throws "Failed to create graphics pipeline!"
after creating two shader modules (handles 100, 101) and a pipeline layout
(handle 102), and has issued no destroy call: all three objects are left
unreleased. With a fragment shader of zero bytes it throws after creating the
vertex shader module (handle 100), again without any destroy call. -/
theorem construct_failure_leaks :
    (construct demoEnv (some dev7) "x.vert" "x.frag" { render_pass := 66 } []).1 =
      .error (.thrown "Failed to create graphics pipeline!") ∧
    (construct demoEnv (some dev7) "x.vert" "x.frag" { render_pass := 66 } []).2.2 =
      [shaderModuleCall dev7 [3, 2, 35, 7], shaderModuleCall dev7 [3, 2, 35, 7, 0, 0, 1, 0],
       layoutCall dev7,
       pipelineCall dev7 "x.vert" "x.frag" { render_pass := 66 } 100 101 102] ∧
    (construct demoEnv (some dev7) "x.vert" "x.frag"
        { render_pass := 66 } []).2.1.pipeline_layout = 102 ∧
    ((construct demoEnv (some dev7) "x.vert" "x.frag"
        { render_pass := 66 } []).2.2.filter DriverCall.isDestroy) = [] ∧
    (construct demoEnv (some dev7) "x.vert" "empty.frag" { render_pass := 5 } []).1 =
      .error (.thrown "Failed to create shader module!") ∧
    (construct demoEnv (some dev7) "x.vert" "empty.frag" { render_pass := 5 } []).2.2 =
      [shaderModuleCall dev7 [3, 2, 35, 7], shaderModuleCall dev7 []] ∧
    demoEnv.vkCreateShaderModule [] dev7.get_logical_device
      { codeSize := 4, pCode := [3, 2, 35, 7] } = .success 100 := by
  refine ⟨rfl, rfl, rfl, rfl, rfl, rfl, rfl⟩

end hkm
